import Mathlib

/-!  Verification of the debugutils log collection pipeline (debugutils/logs.go).

The Go source is shallowly embedded: structs become structures, the
mutable PodLogOptions record threaded through option functions becomes
explicit state passing, fallible calls return Except, and the concurrent
SaveLogs loop (one errgroup goroutine per request, all joined by Wait)
becomes a fold over the independent per-request computations that also
records an event trace (stream opens, save invocations, stream closes)
so that resource-lifetime properties are statable.  errgroup.Wait
returns the first error produced; the fold keeps the first error in
request order.  -/

namespace Debugutils

/-- Time values (metav1.Time) are modelled as natural-number timestamps. -/
def KubeTime := Nat

instance : DecidableEq KubeTime := fun a b => instDecidableEqNat a b

/-- corev1.PodLogOptions: the fields the source reads or writes
(Follow, Previous, SinceTime, Container).  Zero value has false / nil
fields, as in Go. -/
structure PodLogOptions where
  follow : Bool := false
  previous : Bool := false
  sinceTime : Option KubeTime := none
  container : String := ""
deriving DecidableEq

/-- LogRequestOptions: func(options *corev1.PodLogOptions).  The Go
function mutates the record in place; here it maps the record to the
updated record. -/
def LogRequestOptions := PodLogOptions → PodLogOptions

/-- FollowLogs sets options.Follow = true. -/
def FollowLogs : LogRequestOptions := fun options => { options with follow := true }

/-- PreviousLogs sets options.Previous = true. -/
def PreviousLogs : LogRequestOptions := fun options => { options with previous := true }

/-- LogsSince(since) sets options.SinceTime = metav1.Time(since). -/
def LogsSince (since : KubeTime) : LogRequestOptions :=
  fun options => { options with sinceTime := some since }

/-- The loop over the variadic optsFunc slice in buildLogsRequest:
nil entries (modelled as none) are skipped, non-nil functions are applied
in order to the shared options record. -/
def applyOptions (optsFunc : List (Option LogRequestOptions)) (opts : PodLogOptions) :
    PodLogOptions :=
  optsFunc.foldl (fun opts f =>
    match f with
    | none => opts
    | some f => f opts) opts

/-- metav1.ObjectMeta restricted to the fields the source uses:
Name, Namespace, Labels. -/
structure ObjectMeta where
  name : String
  ns : String
  labels : List (String × String) := []
deriving DecidableEq

/-- corev1.Container restricted to its Name field, the only one read. -/
structure ContainerSpec where
  name : String
deriving DecidableEq

/-- corev1.PodSpec restricted to Containers and InitContainers. -/
structure PodSpec where
  containers : List ContainerSpec
  initContainers : List ContainerSpec
deriving DecidableEq

/-- corev1.Pod: ObjectMeta plus Spec. -/
structure Pod where
  metadata : ObjectMeta
  spec : PodSpec
deriving DecidableEq

/-- corev1.PodList: its Items slice. -/
structure PodList where
  items : List Pod
deriving DecidableEq

/-- The rest.Request returned by clientset.Pods(ns).GetLogs(name, opts):
client-go serialises the options into the request at the GetLogs call,
so the request captures namespace, pod name and the options value at
call time. -/
structure RestRequest where
  ns : String
  podName : String
  opts : PodLogOptions
deriving DecidableEq

/-- clientset.Pods(ns).GetLogs(name, opts). -/
def GetLogs (ns podName : String) (opts : PodLogOptions) : RestRequest :=
  { ns := ns, podName := podName, opts := opts }

/-- Modelled from the spec: the LogsRequest type and its constructor
NewLogsRequest are not under src (only their callers are).  Per the
data model a LogRequest captures the owning pod's metadata, the
container name, and the not-yet-opened stream handle (the rest
request). -/
structure LogsRequest where
  podMeta : ObjectMeta
  containerName : String
  request : RestRequest
deriving DecidableEq

/-- NewLogsRequest(podMeta, containerName, request). -/
def NewLogsRequest (podMeta : ObjectMeta) (containerName : String)
    (request : RestRequest) : LogsRequest :=
  { podMeta := podMeta, containerName := containerName, request := request }

/-- Modelled from the spec: ResourceId() is not under src (only its call
site in SaveLogs is).  Per the data model it is a derived, deterministic
string identifier combining namespace, pod name and container name, used
as the archive entry name. -/
def ResourceId (lr : LogsRequest) : String :=
  lr.podMeta.ns ++ "_" ++ lr.podMeta.name ++ "_" ++ lr.containerName

/-- An unstructured resource, opaque to this subsystem: it is only
passed through to the pod finder. -/
structure Unstructured where
  id : Nat
deriving DecidableEq

/-- kuberesource.UnstructuredResources. -/
def UnstructuredResources := List Unstructured

/-- The PodFinder collaborator: GetPods(resources) returns the matching
pod lists or an error, modelled opaquely as a function. -/
def PodFinder := UnstructuredResources → Except String (List PodList)

/-- LogRequestBuilder: its clientset only constructs rest requests
(modelled by GetLogs), so only the pod finder is carried. -/
structure LogRequestBuilder where
  podFinder : PodFinder

/-- buildLogsRequest: applies the non-nil option functions in order to a
fresh PodLogOptions record, then for each standard container and then
each init container sets opts.Container and builds one LogsRequest from
clientset.Pods(pod.Namespace).GetLogs(pod.Name, opts).  The in-place
mutation of the shared options record is modelled by the per-container
container-field update, which GetLogs snapshots at call time. -/
def buildLogsRequest (pod : Pod) (optsFunc : List (Option LogRequestOptions)) :
    List LogsRequest :=
  let opts := applyOptions optsFunc {}
  (pod.spec.containers.map (fun v =>
    NewLogsRequest pod.metadata v.name
      (GetLogs pod.metadata.ns pod.metadata.name { opts with container := v.name })))
  ++
  (pod.spec.initContainers.map (fun v =>
    NewLogsRequest pod.metadata v.name
      (GetLogs pod.metadata.ns pod.metadata.name { opts with container := v.name })))

/-- RetrieveLogs: loops over pods.Items appending
lrb.buildLogsRequest(v).  Note the source passes NO options to
buildLogsRequest here: the variadic opts parameter is accepted but
dropped, exactly as in logs.go line 131. -/
def RetrieveLogs (pods : PodList) (opts : List (Option LogRequestOptions)) :
    List LogsRequest :=
  pods.items.foldl (fun result v => result ++ buildLogsRequest v []) []

/-- LogsFromUnstructured: resolves resources to pods through the pod
finder; on error returns (nil, err) unchanged, otherwise appends
RetrieveLogs for every pod list. -/
def LogsFromUnstructured (lrb : LogRequestBuilder)
    (resources : UnstructuredResources) (opts : List (Option LogRequestOptions)) :
    Except String (List LogsRequest) :=
  match lrb.podFinder resources with
  | Except.error err => Except.error err
  | Except.ok pods =>
      Except.ok (pods.foldl (fun result v => result ++ RetrieveLogs v opts) [])

/-- An opened log stream handle (the io.ReadCloser returned by
Request.Stream()), identified for trace purposes. -/
structure Reader where
  id : Nat
deriving DecidableEq

/-- StorageObject: the named stream handed to StorageClient.Save. -/
structure StorageObject where
  resource : Reader
  name : String
deriving DecidableEq

/-- The Stream Source collaborator: restRequest.Request.Stream(),
returning an opened reader or an error. -/
def StreamSource := RestRequest → Except String Reader

/-- The StorageClient collaborator: Save(location, object) returning
nil (none) on success or an error. -/
def StorageClient := String → StorageObject → Option String

/-- Observable actions of one SaveLogs task, in order of occurrence:
the stream open succeeding, the storage Save invocation, and the
deferred reader.Close(). -/
inductive Event where
  | streamOpened (r : Reader)
  | saveCalled (location : String) (obj : StorageObject)
  | streamClosed (r : Reader)
deriving DecidableEq

/-- Whether an event is a Save invocation on the storage client. -/
def Event.isSave : Event → Bool
  | Event.saveCalled _ _ => true
  | _ => false

/-- Whether an event is a stream close. -/
def Event.isClose : Event → Bool
  | Event.streamClosed _ => true
  | _ => false

/-- Whether an event is a successful stream open. -/
def Event.isOpen : Event → Bool
  | Event.streamOpened _ => true
  | _ => false

/-- The body of one errgroup goroutine in SaveLogs: open the request's
stream; on failure return the error with no further action; on success
invoke storageClient.Save with the reader named by ResourceId, then
(deferred) close the reader, returning Save's error if any.  The result
pairs the task's event trace with its returned error. -/
def saveLogsTask (stream : StreamSource) (client : StorageClient)
    (location : String) (restRequest : LogsRequest) : List Event × Option String :=
  match stream restRequest.request with
  | Except.error err => ([], some err)
  | Except.ok reader =>
      let obj : StorageObject := { resource := reader, name := ResourceId restRequest }
      ([Event.streamOpened reader, Event.saveCalled location obj,
        Event.streamClosed reader],
       client location obj)

/-- SaveLogs: runs one task per request (errgroup goroutines, all
independent and all run to completion) and returns eg.Wait(), the first
non-nil task error; the traces of all tasks are accumulated so that the
calls made on the collaborators are observable. -/
def SaveLogs (stream : StreamSource) (client : StorageClient)
    (location : String) (requests : List LogsRequest) : List Event × Option String :=
  requests.foldl (fun acc request =>
    let r := saveLogsTask stream client location request
    (acc.1 ++ r.1,
     match acc.2 with
     | some err => some err
     | none => r.2)) ([], none)

/-- Whether a request's stream open succeeds under a given stream source. -/
def openOk (stream : StreamSource) (r : LogsRequest) : Bool :=
  match stream r.request with
  | Except.ok _ => true
  | Except.error _ => false

/-- The open error of a request, when its stream open fails. -/
def openError (stream : StreamSource) (r : LogsRequest) : Option String :=
  match stream r.request with
  | Except.ok _ => none
  | Except.error e => some e

/-- Unfolding applyOptions over a nil (skipped) head entry. -/
theorem applyOptions_cons_none (fs : List (Option LogRequestOptions)) (o : PodLogOptions) :
    applyOptions (none :: fs) o = applyOptions fs o := rfl

/-- Unfolding applyOptions over an applied head option. -/
theorem applyOptions_cons_some (f : LogRequestOptions)
    (fs : List (Option LogRequestOptions)) (o : PodLogOptions) :
    applyOptions (some f :: fs) o = applyOptions fs (f o) := rfl

/-- Skipping nil entries leaves applyOptions unchanged: applying a list
of optional option functions equals applying only its non-nil members. -/
theorem applyOptions_filterMap (fs : List (Option LogRequestOptions)) (o : PodLogOptions) :
    applyOptions fs o = applyOptions ((fs.filterMap id).map some) o := by
  induction fs generalizing o with
  | nil => rfl
  | cons f fs ih =>
      cases f with
      | none => simpa [List.filterMap_cons] using ih o
      | some g => simpa [List.filterMap_cons, applyOptions_cons_some] using ih (g o)

end Debugutils

namespace Debugutils

/-- Claim C2: for every pod with c standard containers and i init
containers, buildLogsRequest produces exactly c+i LogsRequests, the
requests for standard containers (in order) preceding those for init
containers (in order), and an empty container list yields the empty
request list rather than an error. -/
theorem buildLogsRequest_count_and_order (pod : Pod)
    (optsFunc : List (Option LogRequestOptions)) :
    (buildLogsRequest pod optsFunc).length
        = pod.spec.containers.length + pod.spec.initContainers.length
    ∧ (buildLogsRequest pod optsFunc).map (fun r => r.containerName)
        = pod.spec.containers.map (fun c => c.name)
          ++ pod.spec.initContainers.map (fun c => c.name)
    ∧ (pod.spec.containers = [] → pod.spec.initContainers = [] →
        buildLogsRequest pod optsFunc = []) := by
  refine ⟨?_, ?_, ?_⟩
  · simp [buildLogsRequest]
  · simp [buildLogsRequest, NewLogsRequest, Function.comp_def]
  · intro h1 h2
    simp [buildLogsRequest, h1, h2]

/-- Witness for C2 at a concrete pod with no containers: zero requests
and no failure. -/
theorem buildLogsRequest_count_and_order_witness :
    buildLogsRequest
      { metadata := { name := "mypod", ns := "myns", labels := [] },
        spec := { containers := [], initContainers := [] } } [] = [] :=
  (buildLogsRequest_count_and_order
    { metadata := { name := "mypod", ns := "myns", labels := [] },
      spec := { containers := [], initContainers := [] } } []).2.2 rfl rfl

/-- Claim C8: options compose by sequential application to one options
record; applying LogsSince T then PreviousLogs leaves both fields set
(sinceTime = T and previous = true), later options augmenting rather
than overwriting the record (the untouched follow and container fields
are preserved). -/
theorem applyOptions_since_then_previous (T : KubeTime) (o : PodLogOptions) :
    (applyOptions [some (LogsSince T), some PreviousLogs] o).sinceTime = some T
    ∧ (applyOptions [some (LogsSince T), some PreviousLogs] o).previous = true
    ∧ (applyOptions [some (LogsSince T), some PreviousLogs] o).follow = o.follow
    ∧ (applyOptions [some (LogsSince T), some PreviousLogs] o).container = o.container := by
  refine ⟨rfl, rfl, rfl, rfl⟩

/-- Claim C10: buildLogsRequest skips nil option entries, behaving
exactly as if only the non-nil options had been supplied, and never
fails on nil entries. -/
theorem buildLogsRequest_skips_nil_options (pod : Pod)
    (fs : List (Option LogRequestOptions)) :
    buildLogsRequest pod fs = buildLogsRequest pod ((fs.filterMap id).map some) := by
  unfold buildLogsRequest
  rw [applyOptions_filterMap]

/-- Left cancellation of string append, via the underlying character
lists. -/
theorem string_append_cancel_left {a x y : String} (h : a ++ x = a ++ y) : x = y := by
  apply String.ext
  have h2 := congrArg String.data h
  simp only [String.data_append] at h2
  exact List.append_cancel_left h2

/-- Right cancellation of string append, via the underlying character
lists. -/
theorem string_append_cancel_right {x y c : String} (h : x ++ c = y ++ c) : x = y := by
  apply String.ext
  have h2 := congrArg String.data h
  simp only [String.data_append] at h2
  exact List.append_cancel_right h2

/-- Claim C3: LogsFromUnstructured propagates a pod-finder failure
unchanged with no partial request list, and returns no error whenever
the pod finder succeeds. -/
theorem logsFromUnstructured_propagates_finder_error (lrb : LogRequestBuilder)
    (resources : UnstructuredResources) (opts : List (Option LogRequestOptions)) :
    (∀ e, lrb.podFinder resources = Except.error e →
        LogsFromUnstructured lrb resources opts = Except.error e)
    ∧ (∀ pods, lrb.podFinder resources = Except.ok pods →
        LogsFromUnstructured lrb resources opts
          = Except.ok (pods.foldl (fun result v => result ++ RetrieveLogs v opts) [])) := by
  constructor
  · intro e h
    simp [LogsFromUnstructured, h]
  · intro pods h
    simp [LogsFromUnstructured, h]

/-- Witness for C3 at a concrete failing and a concrete succeeding pod
finder. -/
theorem logsFromUnstructured_propagates_finder_error_witness :
    LogsFromUnstructured ⟨fun _ => Except.error "finder failed"⟩ [] []
        = Except.error "finder failed"
    ∧ LogsFromUnstructured ⟨fun _ => Except.ok []⟩ [] [] = Except.ok [] :=
  ⟨(logsFromUnstructured_propagates_finder_error _ _ _).1 "finder failed" rfl,
   (logsFromUnstructured_propagates_finder_error _ _ _).2 [] rfl⟩

/-- Claim C9: ResourceId is a pure function of the (namespace, pod
name, container name) triple — equal triples give equal identifiers —
and two requests whose triples differ in exactly one field get
different identifiers. -/
theorem resourceId_deterministic_and_unique (r₁ r₂ : LogsRequest) :
    (r₁.podMeta.ns = r₂.podMeta.ns → r₁.podMeta.name = r₂.podMeta.name →
        r₁.containerName = r₂.containerName → ResourceId r₁ = ResourceId r₂)
    ∧ (r₁.podMeta.ns = r₂.podMeta.ns → r₁.podMeta.name = r₂.podMeta.name →
        r₁.containerName ≠ r₂.containerName → ResourceId r₁ ≠ ResourceId r₂)
    ∧ (r₁.podMeta.ns = r₂.podMeta.ns → r₁.containerName = r₂.containerName →
        r₁.podMeta.name ≠ r₂.podMeta.name → ResourceId r₁ ≠ ResourceId r₂)
    ∧ (r₁.podMeta.name = r₂.podMeta.name → r₁.containerName = r₂.containerName →
        r₁.podMeta.ns ≠ r₂.podMeta.ns → ResourceId r₁ ≠ ResourceId r₂) := by
  unfold ResourceId
  refine ⟨?_, ?_, ?_, ?_⟩
  · intro h1 h2 h3
    rw [h1, h2, h3]
  · intro h1 h2 hne heq
    rw [h1, h2] at heq
    exact hne (string_append_cancel_left heq)
  · intro h1 h2 hne heq
    rw [h1, h2] at heq
    exact hne (string_append_cancel_left
      (string_append_cancel_right (string_append_cancel_right heq)))
  · intro h1 h2 hne heq
    rw [h1, h2] at heq
    exact hne (string_append_cancel_right (string_append_cancel_right
      (string_append_cancel_right (string_append_cancel_right heq))))

/-- Witness for C9: equal triples agree, and a one-field difference in
the container name separates the identifiers, at concrete requests. -/
theorem resourceId_deterministic_and_unique_witness :
    ResourceId (NewLogsRequest ⟨"p", "n", []⟩ "c" (GetLogs "n" "p" {}))
        = ResourceId (NewLogsRequest ⟨"p", "n", []⟩ "c" (GetLogs "n" "p" {}))
    ∧ ResourceId (NewLogsRequest ⟨"p", "n", []⟩ "c" (GetLogs "n" "p" {}))
        ≠ ResourceId (NewLogsRequest ⟨"p", "n", []⟩ "d" (GetLogs "n" "p" {})) :=
  ⟨(resourceId_deterministic_and_unique _ _).1 rfl rfl rfl,
   (resourceId_deterministic_and_unique _ _).2.1 rfl rfl (by decide)⟩

/-- Claim C1 fails on the source: RetrieveLogs accepts options but does
not forward them to buildLogsRequest (logs.go line 131), so a request
built through RetrieveLogs with FollowLogs supplied has follow = false,
while buildLogsRequest with the same option applied yields follow =
true. -/
theorem retrieveLogs_drops_supplied_options :
    (RetrieveLogs ⟨[⟨⟨"mypod", "myns", []⟩, ⟨[⟨"web"⟩], []⟩⟩]⟩
        [some FollowLogs]).map (fun r => r.request.opts.follow) = [false]
    ∧ (buildLogsRequest ⟨⟨"mypod", "myns", []⟩, ⟨[⟨"web"⟩], []⟩⟩
        [some FollowLogs]).map (fun r => r.request.opts.follow) = [true] := by
  exact ⟨rfl, rfl⟩

/-- Unfolding the SaveLogs fold: the traces of all tasks concatenate in
request order and the returned error is the first task error in request
order, for any starting accumulator. -/
theorem saveLogs_foldl_acc (stream : StreamSource) (client : StorageClient)
    (location : String) (requests : List LogsRequest) (acc : List Event × Option String) :
    requests.foldl (fun acc request =>
        let r := saveLogsTask stream client location request
        (acc.1 ++ r.1,
         match acc.2 with
         | some err => some err
         | none => r.2)) acc
      = (acc.1 ++ requests.flatMap (fun r => (saveLogsTask stream client location r).1),
         match acc.2 with
         | some err => some err
         | none =>
             (requests.filterMap (fun r => (saveLogsTask stream client location r).2)).head?) := by
  induction requests generalizing acc with
  | nil =>
      cases acc with
      | mk a b => cases b <;> simp
  | cons r rs ih =>
      simp only [List.foldl_cons]
      rw [ih]
      cases acc with
      | mk a b =>
        cases b with
        | some e => simp [List.flatMap_cons]
        | none =>
            cases h : (saveLogsTask stream client location r).2 with
            | some e => simp [List.flatMap_cons, List.filterMap_cons, h]
            | none => simp [List.flatMap_cons, List.filterMap_cons, h]

/-- SaveLogs in closed form: concatenated task traces and first task
error in request order. -/
theorem saveLogs_spec (stream : StreamSource) (client : StorageClient)
    (location : String) (requests : List LogsRequest) :
    SaveLogs stream client location requests
      = (requests.flatMap (fun r => (saveLogsTask stream client location r).1),
         (requests.filterMap (fun r => (saveLogsTask stream client location r).2)).head?) := by
  unfold SaveLogs
  rw [saveLogs_foldl_acc]
  simp

/-- Each task performs exactly one Save invocation when its stream
opens and none otherwise. -/
theorem saveLogsTask_countSave (stream : StreamSource) (client : StorageClient)
    (location : String) (r : LogsRequest) :
    (saveLogsTask stream client location r).1.countP Event.isSave
      = if openOk stream r then 1 else 0 := by
  unfold saveLogsTask openOk
  cases stream r.request <;> simp [Event.isSave]

/-- Save invocations across all tasks count the requests whose stream
opens. -/
theorem countSave_flatMap (stream : StreamSource) (client : StorageClient)
    (location : String) (requests : List LogsRequest) :
    ((requests.flatMap (fun r => (saveLogsTask stream client location r).1)).countP
        Event.isSave)
      = requests.countP (fun r => openOk stream r) := by
  induction requests with
  | nil => simp
  | cons r rs ih =>
      rw [List.flatMap_cons, List.countP_append, List.countP_cons, ih,
        saveLogsTask_countSave]
      cases h : openOk stream r <;> simp [h] <;> omega

/-- Counting a predicate and its complement partitions a list's
length. -/
theorem countP_add_countP_neg {α : Type} (l : List α) (p : α → Bool) :
    l.countP p + l.countP (fun a => !p a) = l.length := by
  induction l with
  | nil => simp
  | cons a l ih =>
      simp only [List.countP_cons, List.length_cons]
      cases h : p a <;> simp [h] <;> omega

/-- With a storage client that never fails, each task's error is its
open error. -/
theorem saveLogsTask_error_eq_openError (stream : StreamSource) (client : StorageClient)
    (location : String) (hclient : ∀ l o, client l o = none) (r : LogsRequest) :
    (saveLogsTask stream client location r).2 = openError stream r := by
  unfold saveLogsTask openError
  cases stream r.request <;> simp [hclient]

/-- Claim C4: over any request list in which only stream opens can fail
(the storage client never fails), SaveLogs performs exactly N − K Save
invocations where N is the number of requests and K the number of open
failures, runs every request to completion regardless of sibling
failures (its trace is the concatenation of every task's full trace),
and returns the first error encountered in request order. -/
theorem saveLogs_counts_and_first_error (stream : StreamSource) (client : StorageClient)
    (location : String) (requests : List LogsRequest)
    (hclient : ∀ l o, client l o = none) :
    ((SaveLogs stream client location requests).1.countP Event.isSave
        = requests.length - requests.countP (fun r => !openOk stream r))
    ∧ ((SaveLogs stream client location requests).1
        = requests.flatMap (fun r => (saveLogsTask stream client location r).1))
    ∧ ((SaveLogs stream client location requests).2
        = (requests.filterMap (fun r => openError stream r)).head?) := by
  rw [saveLogs_spec]
  refine ⟨?_, rfl, ?_⟩
  · rw [countSave_flatMap]
    have h := countP_add_countP_neg requests (fun r => openOk stream r)
    omega
  · have h := saveLogsTask_error_eq_openError stream client location hclient
    simp only [h]

/-- A concrete request fixture used in witnesses, keyed by container
name. -/
def wReq (c : String) : LogsRequest :=
  NewLogsRequest ⟨"mypod", "myns", []⟩ c (GetLogs "myns" "mypod" { container := c })

/-- A concrete stream source fixture: opening the container named bad
fails, every other open succeeds. -/
def wStream : StreamSource := fun req =>
  if req.opts.container = "bad" then Except.error "open failed" else Except.ok ⟨1⟩

/-- A concrete storage client fixture that always succeeds. -/
def wClient : StorageClient := fun _ _ => none

/-- Witness for C4 at two concrete requests of which exactly one open
fails: one Save invocation (2 − 1) and the first error returned. -/
theorem saveLogs_counts_and_first_error_witness :
    ((SaveLogs wStream wClient "loc" [wReq "web", wReq "bad"]).1.countP Event.isSave
        = [wReq "web", wReq "bad"].length
            - [wReq "web", wReq "bad"].countP (fun r => !openOk wStream r))
    ∧ (SaveLogs wStream wClient "loc" [wReq "web", wReq "bad"]).1.countP Event.isSave = 1
    ∧ (SaveLogs wStream wClient "loc" [wReq "web", wReq "bad"]).2 = some "open failed" :=
  ⟨(saveLogs_counts_and_first_error wStream wClient "loc" [wReq "web", wReq "bad"]
      (fun _ _ => rfl)).1,
   by rfl,
   by rfl⟩

/-- Claim C5: per SaveLogs task, a stream whose open fails produces no
stream event at all (in particular it is never closed), while a stream
that opens yields the exact trace open, save invocation, close — closed
exactly once, after the save attempt, independently of whether the save
succeeds or fails — and close-count always equals open-count. -/
theorem saveLogsTask_close_discipline (stream : StreamSource) (client : StorageClient)
    (location : String) (req : LogsRequest) :
    (∀ e, stream req.request = Except.error e →
        (saveLogsTask stream client location req).1 = [])
    ∧ (∀ reader, stream req.request = Except.ok reader →
        (saveLogsTask stream client location req).1
          = [Event.streamOpened reader,
             Event.saveCalled location ⟨reader, ResourceId req⟩,
             Event.streamClosed reader])
    ∧ ((saveLogsTask stream client location req).1.countP Event.isClose
        = (saveLogsTask stream client location req).1.countP Event.isOpen) := by
  refine ⟨?_, ?_, ?_⟩
  · intro e h
    simp [saveLogsTask, h]
  · intro reader h
    simp [saveLogsTask, h]
  · unfold saveLogsTask
    cases stream req.request <;> simp [Event.isClose, Event.isOpen]

/-- Witness for C5 at concrete requests: the failing open leaves an
empty trace, the succeeding open gives the exact open-save-close
trace. -/
theorem saveLogsTask_close_discipline_witness :
    (saveLogsTask wStream wClient "loc" (wReq "bad")).1 = []
    ∧ (saveLogsTask wStream wClient "loc" (wReq "web")).1
        = [Event.streamOpened ⟨1⟩,
           Event.saveCalled "loc" ⟨⟨1⟩, ResourceId (wReq "web")⟩,
           Event.streamClosed ⟨1⟩] :=
  ⟨(saveLogsTask_close_discipline wStream wClient "loc" (wReq "bad")).1 "open failed" rfl,
   (saveLogsTask_close_discipline wStream wClient "loc" (wReq "web")).2.1 ⟨1⟩ rfl⟩

/-- Claim C6: SaveLogs on the empty request list returns no error and
performs no storage-client calls (its trace is empty), and a request
whose stream open fails triggers no Save invocation. -/
theorem saveLogs_empty_and_no_save_on_open_failure (stream : StreamSource)
    (client : StorageClient) (location : String) :
    SaveLogs stream client location [] = ([], none)
    ∧ (∀ req e, stream req.request = Except.error e →
        (saveLogsTask stream client location req).1.countP Event.isSave = 0) := by
  constructor
  · rfl
  · intro req e h
    simp [saveLogsTask, h]

/-- Witness for C6 at the concrete fixtures: empty input gives the
empty trace and no error; a failing open performs no Save. -/
theorem saveLogs_empty_and_no_save_on_open_failure_witness :
    SaveLogs wStream wClient "loc" [] = ([], none)
    ∧ (saveLogsTask wStream wClient "loc" (wReq "bad")).1.countP Event.isSave = 0 :=
  ⟨(saveLogs_empty_and_no_save_on_open_failure wStream wClient "loc").1,
   (saveLogs_empty_and_no_save_on_open_failure wStream wClient "loc").2
     (wReq "bad") "open failed" rfl⟩

end Debugutils
